import Mathlib

/-!
# PyMapReduce — client-side job protocol engine, shallow embedding

This development embeds the message codec (`messages.py`) and the client
job-lifecycle state machine (`client/client.py`) of the PyMapReduce
repository, and proves the frozen claims about them.

Conventions:
* Python `str` values are Lean `String`s (sequences of Unicode scalar values);
  `len` on a `str` is the codepoint count `String.length`.
* Wire bytes are `List Nat`, each element `< 256`.
* A Python computation that can raise an uncaught exception is embedded as a
  function into `Option _`; `none` models the exception (which would
  terminate the client process).
* `connection.py`, `filesystems.py` and the `PMRProcessing` task runner are
  not under `src/`; where a claim needs them they are modelled from the
  spec, with a doc comment saying so.
-/

namespace PMR

/-- The closed opcode enumeration from `messages.py` (`class MessageTypes`). -/
inductive MessageTypes where
  | SUBSCRIBE_MESSAGE
  | SUBSCRIBE_ACK_MESSAGE
  | RESUBSCRIBE_MESSAGE
  | JOB_READY
  | JOB_READY_TO_RECEIVE
  | JOB_INSTRUCTIONS_FILE
  | JOB_INSTRUCTIONS_FILE_ACK
  | DATAFILE
  | DATAFILE_ACK
  | JOB_START
  | JOB_START_ACK
  | JOB_HEARTBEAT
  | JOB_DONE
  | JOB_DONE_ACK
  | SUBMIT_JOB
  | SUBMIT_JOB_ACK
  | SUBMITTED_JOB_FINISHED
  | SUBMITTED_JOB_FINISHED_ACK
  | SERVER_ERROR
  | CLIENT_ERROR
deriving DecidableEq

/-- Numeric wire value of each opcode (`MessageTypes.--type--.value`). -/
def MessageTypes.value : MessageTypes → Nat
  | .SUBSCRIBE_MESSAGE => 1
  | .SUBSCRIBE_ACK_MESSAGE => 2
  | .RESUBSCRIBE_MESSAGE => 3
  | .JOB_READY => 4
  | .JOB_READY_TO_RECEIVE => 5
  | .JOB_INSTRUCTIONS_FILE => 6
  | .JOB_INSTRUCTIONS_FILE_ACK => 7
  | .DATAFILE => 8
  | .DATAFILE_ACK => 9
  | .JOB_START => 10
  | .JOB_START_ACK => 11
  | .JOB_HEARTBEAT => 12
  | .JOB_DONE => 13
  | .JOB_DONE_ACK => 14
  | .SUBMIT_JOB => 15
  | .SUBMIT_JOB_ACK => 16
  | .SUBMITTED_JOB_FINISHED => 17
  | .SUBMITTED_JOB_FINISHED_ACK => 18
  | .SERVER_ERROR => 98
  | .CLIENT_ERROR => 99

/-- Inverse of `MessageTypes.value`: the registered opcode for a wire byte,
`none` for a byte outside the vocabulary. -/
def opcodeOfNat (n : Nat) : Option MessageTypes :=
  match n with
  | 1 => some .SUBSCRIBE_MESSAGE
  | 2 => some .SUBSCRIBE_ACK_MESSAGE
  | 3 => some .RESUBSCRIBE_MESSAGE
  | 4 => some .JOB_READY
  | 5 => some .JOB_READY_TO_RECEIVE
  | 6 => some .JOB_INSTRUCTIONS_FILE
  | 7 => some .JOB_INSTRUCTIONS_FILE_ACK
  | 8 => some .DATAFILE
  | 9 => some .DATAFILE_ACK
  | 10 => some .JOB_START
  | 11 => some .JOB_START_ACK
  | 12 => some .JOB_HEARTBEAT
  | 13 => some .JOB_DONE
  | 14 => some .JOB_DONE_ACK
  | 15 => some .SUBMIT_JOB
  | 16 => some .SUBMIT_JOB_ACK
  | 17 => some .SUBMITTED_JOB_FINISHED
  | 18 => some .SUBMITTED_JOB_FINISHED_ACK
  | 98 => some .SERVER_ERROR
  | 99 => some .CLIENT_ERROR
  | _ => none

/-- A protocol message (`class Message`): an opcode and an optional text body
(`self._body`; `None` and a string are both possible). -/
structure Message where
  m_type : MessageTypes
  body : Option String
deriving DecidableEq

/-- UTF-8 encoding of one Unicode scalar value (codepoint given as `Nat`). -/
def utf8EncodeChar (c : Nat) : List Nat :=
  if c < 0x80 then [c]
  else if c < 0x800 then [0xC0 + c / 64, 0x80 + c % 64]
  else if c < 0x10000 then
    [0xE0 + c / 4096, 0x80 + (c / 64) % 64, 0x80 + c % 64]
  else
    [0xF0 + c / 262144, 0x80 + (c / 4096) % 64, 0x80 + (c / 64) % 64, 0x80 + c % 64]

/-- UTF-8 byte sequence of a string (`bytes(s, encoding='utf-8')`). -/
def utf8Encode (s : String) : List Nat :=
  (s.data.map (fun c => utf8EncodeChar c.toNat)).flatten

/-- UTF-8 decoding of a byte sequence to a codepoint sequence
(`str(b, encoding='utf-8')`); `none` on any invalid, truncated, overlong or
surrogate-encoding input, as Python's strict UTF-8 decoder rejects those. -/
def utf8Decode : List Nat → Option (List Nat)
  | [] => some []
  | b :: rest =>
    if b < 0x80 then
      (utf8Decode rest).map (fun cs => b :: cs)
    else if b < 0xC2 then none
    else if b < 0xE0 then
      match rest with
      | b1 :: rest2 =>
        if 0x80 ≤ b1 ∧ b1 < 0xC0 then
          (utf8Decode rest2).map (fun cs => ((b - 0xC0) * 64 + (b1 - 0x80)) :: cs)
        else none
      | [] => none
    else if b < 0xF0 then
      match rest with
      | b1 :: b2 :: rest3 =>
        if (0x80 ≤ b1 ∧ b1 < 0xC0) ∧ (0x80 ≤ b2 ∧ b2 < 0xC0) then
          let c := (b - 0xE0) * 4096 + (b1 - 0x80) * 64 + (b2 - 0x80)
          if c < 0x800 then none
          else if 0xD800 ≤ c ∧ c < 0xE000 then none
          else (utf8Decode rest3).map (fun cs => c :: cs)
        else none
      | _ => none
    else if b < 0xF5 then
      match rest with
      | b1 :: b2 :: b3 :: rest4 =>
        if (0x80 ≤ b1 ∧ b1 < 0xC0) ∧ (0x80 ≤ b2 ∧ b2 < 0xC0) ∧ (0x80 ≤ b3 ∧ b3 < 0xC0) then
          let c := (b - 0xF0) * 262144 + (b1 - 0x80) * 4096 + (b2 - 0x80) * 64 + (b3 - 0x80)
          if c < 0x10000 then none
          else if 0x110000 ≤ c then none
          else (utf8Decode rest4).map (fun cs => c :: cs)
        else none
      | _ => none
    else none

/-- Big-endian 4-byte encoding of a length (the `i` of `struct.pack('!Bi', ...)`;
for `0 ≤ n < 2^31` the signed and unsigned encodings coincide). -/
def be32 (n : Nat) : List Nat :=
  [n / 2 ^ 24 % 256, n / 2 ^ 16 % 256, n / 2 ^ 8 % 256, n % 256]

/-- The length field written by `Message.get_header_for_send` (line 76):
`len(self._body) if self._body else 0` — Python `len` of a `str`, i.e. the
CODEPOINT COUNT, and `0` for `None` or the falsy empty string. -/
def headerLenField : Option String → Nat
  | none => 0
  | some s => if s = "" then 0 else s.length

/-- Model of `Message.get_header_for_send` (line 76): `struct.pack('!Bi', m_type.value,
len(body) if body else 0)`. `none` models the `struct.error` raised when the
length does not fit a signed 4-byte int. -/
def get_header_for_send (m : Message) : Option (List Nat) :=
  let len := headerLenField m.body
  if len < 2 ^ 31 then some (m.m_type.value :: be32 len) else none

/-- Model of `struct.pack('Ns', bs)`: truncates `bs` to `N` bytes, or zero-pads up
to `N` bytes. -/
def packS (count : Nat) (bs : List Nat) : List Nat :=
  bs.take count ++ List.replicate (count - bs.length) 0

/-- Model of `Message.get_body_for_send` (line 79):
`struct.pack(str(len(self._body)) + 's', bytes(self._body, encoding='utf-8'))`
— the field width is the CODEPOINT COUNT `len(self._body)`, so multi-byte
UTF-8 bodies are truncated. A `none` body is never sent on the wire (the
connection collaborator checks `has_body()` first); it contributes no bytes. -/
def get_body_for_send : Option String → List Nat
  | none => []
  | some s => packS s.length (utf8Encode s)

/-- The full encoded frame for a message: header followed by body bytes. -/
def encodeWire (m : Message) : Option (List Nat) :=
  (get_header_for_send m).map (fun h => h ++ get_body_for_send m.body)

/-- Modelled from the spec: the decoder lives in `connection.py`, which is not
under `src/`. Per spec §4.1/§6 it reads the fixed 5-byte header (1-byte
opcode, 4-byte big-endian length), fails on an opcode outside the vocabulary,
reads exactly `body_length` body bytes and decodes them as UTF-8. Applied here
to one complete frame; `none` collapses `UnknownOpcode` / `TruncatedBody` /
invalid UTF-8. Returns the opcode and the body's codepoint sequence. -/
def decodeWire (bs : List Nat) : Option (MessageTypes × List Nat) :=
  match bs with
  | op :: b0 :: b1 :: b2 :: b3 :: rest =>
    match opcodeOfNat op with
    | none => none
    | some ty =>
      let len := ((b0 * 256 + b1) * 256 + b2) * 256 + b3
      if rest.length = len then
        (utf8Decode rest).map (fun cps => (ty, cps))
      else none
  | _ => none

/-- The codepoint sequence of a message's body (an absent body and an empty
body are both the empty sequence, as both serialize to zero length). -/
def bodyCodepoints (m : Message) : List Nat :=
  match m.body with
  | none => []
  | some s => s.data.map Char.toNat

/-! ## Python string helpers used by the client state machine -/

/-- One pass of Python `str.split(';;')`: split on each non-overlapping
occurrence of the two-character separator, left to right (`messages.py`
`separator = ';;'`). `acc` holds the current field, reversed. -/
def splitSS (acc : List Char) : List Char → List (List Char)
  | ';' :: ';' :: rest => acc.reverse :: splitSS [] rest
  | c :: rest => splitSS (c :: acc) rest
  | [] => [acc.reverse]

/-- Python `body.split(';;')` on a string. -/
def pySplitSS (s : String) : List String :=
  (splitSS [] s.data).map (fun cs => String.mk cs)

/-- Python `str.isspace` on the ASCII whitespace characters recognised by
`int(...)`'s surrounding-whitespace stripping. -/
def pyIsSpace (c : Char) : Bool :=
  c = ' ' ∨ (9 ≤ c.toNat ∧ c.toNat ≤ 13)

/-- Digit-run tail of Python `int(str)`: after the first digit, digits may
continue, with single underscores allowed only between digits. -/
def digitsCore (acc : Nat) : List Char → Option Nat
  | [] => some acc
  | '_' :: c :: rest =>
    if c.isDigit then digitsCore (acc * 10 + (c.toNat - 48)) rest else none
  | c :: rest =>
    if c.isDigit then digitsCore (acc * 10 + (c.toNat - 48)) rest else none

/-- Nonempty digit run with optional internal underscores; `none` if the
first character is not a digit. -/
def digitsVal : List Char → Option Nat
  | [] => none
  | c :: rest => if c.isDigit then digitsCore (c.toNat - 48) rest else none

/-- Model of Python `int(s)` for a `str` argument: strips surrounding
whitespace, allows one optional sign, then a nonempty decimal digit run
(underscores permitted between digits); anything else raises `ValueError`,
modelled as `none`. -/
def pyInt (s : String) : Option Int :=
  let cs := ((s.data.dropWhile pyIsSpace).reverse.dropWhile pyIsSpace).reverse
  match cs with
  | '-' :: rest => (digitsVal rest).map (fun n => -(n : Int))
  | '+' :: rest => (digitsVal rest).map (fun n => (n : Int))
  | rest => (digitsVal rest).map (fun n => (n : Int))

/-! ## Message constructors (`messages.py` subclasses) -/

/-- Constructor `SubscribeMessage()`: no body. -/
def subscribeMessage : Message := ⟨.SUBSCRIBE_MESSAGE, none⟩

/-- Constructor `JobReadyMessage(job_id)`. -/
def jobReadyMessage (job_id : String) : Message := ⟨.JOB_READY, some job_id⟩

/-- Constructor `JobReadyToReceiveMessage()`: no body. -/
def jobReadyToReceiveMessage : Message := ⟨.JOB_READY_TO_RECEIVE, none⟩

/-- Constructor `JobInstructionsFileAckMessage()`: no body. -/
def jobInstructionsFileAckMessage : Message := ⟨.JOB_INSTRUCTIONS_FILE_ACK, none⟩

/-- Constructor `DataFileAckMessage()`: no body. -/
def dataFileAckMessage : Message := ⟨.DATAFILE_ACK, none⟩

/-- Constructor `JobDoneMessage(path)`. -/
def jobDoneMessage (path : String) : Message := ⟨.JOB_DONE, some path⟩

/-- Parsing of a `JobInstructionsFileMessage` body (static getters, lines
129–143, as invoked in order by `Client.do_processing` lines 61–64):
field 0 is the path, field 1 the type, field 2 `int`-parsed as the worker
count, field 3 `int`-parsed as the partition number. A missing index
(`IndexError`) or failed `int` (`ValueError`) is an uncaught exception,
modelled as `none`. -/
def parseJobInstructions (body : String) : Option (String × String × Int × Int) :=
  ((pySplitSS body)[0]?).bind fun path =>
  ((pySplitSS body)[1]?).bind fun ty =>
  ((pySplitSS body)[2]?).bind fun s2 =>
  (pyInt s2).bind fun nw =>
  ((pySplitSS body)[3]?).bind fun s3 =>
  (pyInt s3).map fun pn => (path, ty, nw, pn)

/-! ## Client state (`client/client.py`) -/

/-- The client's mutable state: the two message queues (class-level lists,
lines 18–21), the Job Context fields initialised in `__init__`
(lines 26–32), and — modelled from the spec (`connection.py` is not under
`src/`) — `transmitted`, the ordered log of messages handed to the
Connection Channel for transmission during a flush. -/
structure ClientState where
  message_read_queue : List Message
  message_write_queue : List Message
  has_job : Bool
  instructions_file : Option String
  instructions_type : Option String
  data_path : Option String
  num_workers : Option Int
  partition_num : Option Int
  transmitted : List Message
deriving DecidableEq

/-- The state at client start-up: one SUBSCRIBE pre-queued for transmission
(line 18–20), empty inbound queue, no job context. -/
def initialClientState : ClientState :=
  { message_read_queue := []
    message_write_queue := [subscribeMessage]
    has_job := false
    instructions_file := none
    instructions_type := none
    data_path := none
    num_workers := none
    partition_num := none
    transmitted := [] }

/-- Model of `Client.prep_for_new_job` (lines 43–49): clears every Job Context field. -/
def prep_for_new_job (s : ClientState) : ClientState :=
  { s with
    has_job := false
    instructions_file := none
    instructions_type := none
    data_path := none
    num_workers := none
    partition_num := none }

/-- Result of the completion hook: whether the output stream was closed
(the external `out_file`), and the client state afterwards. -/
structure DieResult where
  stream_closed : Bool
  state : ClientState
deriving DecidableEq

/-- The completion hook registered via `task.SetDieMethod` (lines 106–110):
`[out_file.close(), message_write_queue.append(JobDoneMessage(out_path)),
prep_for_new_job()]`. -/
def dieMethod (out_path : String) (s : ClientState) : DieResult :=
  { stream_closed := true
    state := prep_for_new_job
      { s with message_write_queue := s.message_write_queue ++ [jobDoneMessage out_path] } }

/-- Python `str(x)` for the `Option Int`-valued `partition_num` field:
`str(None) = "None"`, `str(n)` the usual decimal rendering. -/
def pyStrOptInt : Option Int → String
  | none => "None"
  | some n => toString n

/-- Output-path resolution in the JOB_START branch (lines 77–80):
`Mapper` takes a fresh writable path from the filesystem collaborator
(`fresh_path` models `fs.get_writeable_file_path()`), `Reducer` takes
`fs.get_file_with_name('partition_{partition_num}')`; any other kind leaves
`out_path` unbound, so `fs.open(out_path, 'w')` on line 83 raises
`UnboundLocalError` — modelled as `none`. -/
def resolveOutPath (fresh_path : String) (ty : String) (pn : Option Int) : Option String :=
  if ty = "Mapper" then some fresh_path
  else if ty = "Reducer" then some ("partition_" ++ pyStrOptInt pn)
  else none

/-- The JOB_START branch of `Client.do_processing` (lines 69–112).
`importlib.import_module`, `getattr` and `open(self.data_path)` raise if the
corresponding context field is still `None` (modelled as `none`); output-path
resolution may raise `UnboundLocalError` (see `resolveOutPath`). The task
construction and `task.run()` are the `PMRProcessing` collaborator, not under
`src/` — modelled from the spec: the run invokes the registered beat hook
periodically (writing heartbeats directly through the connection, not the
write queue) and the die hook exactly once on completion, so the state after
the branch is the die hook's state. -/
def jobStartBranch (fresh_path : String) (s : ClientState) : Option ClientState :=
  match s.instructions_file, s.instructions_type, s.data_path with
  | some _iref, some ty, some _dp =>
    match resolveOutPath fresh_path ty s.partition_num with
    | none => none
    | some out_path => some (dieMethod out_path s).state
  | _, _, _ => none

/-- Model of `Client.do_processing` (lines 51–112): if the inbound queue is nonempty,
pop its head (`pop(0)`) and dispatch on the opcode; inbound messages of any
other opcode fall through the `elif` chain with no effect. `none` models an
uncaught Python exception terminating the client. `fresh_path` models the
external `fs.get_writeable_file_path()` used by the JOB_START branch. -/
def do_processing (fresh_path : String) (s : ClientState) : Option ClientState :=
  match s.message_read_queue with
  | [] => some s
  | message :: rest =>
    let s := { s with message_read_queue := rest }
    if message.m_type = .JOB_READY then
      if s.has_job then some s
      else some { s with
        has_job := true
        message_write_queue := s.message_write_queue ++ [jobReadyToReceiveMessage] }
    else if message.m_type = .JOB_INSTRUCTIONS_FILE then
      match message.body with
      | none => none
      | some body =>
        match parseJobInstructions body with
        | none => none
        | some (path, ty, nw, pn) =>
          some { s with
            instructions_file := some path
            instructions_type := some ty
            num_workers := some nw
            partition_num := some pn
            message_write_queue := s.message_write_queue ++ [jobInstructionsFileAckMessage] }
    else if message.m_type = .DATAFILE then
      match message.body with
      | none => none
      | some body =>
        some { s with
          data_path := some body
          message_write_queue := s.message_write_queue ++ [dataFileAckMessage] }
    else if message.m_type = .JOB_START then
      jobStartBranch fresh_path s
    else some s

/-! ## Reactor loop (`Client.run`, lines 122–140) -/

/-- The write-flush loop (lines 137–139): `pop(0)` the queue head and hand it
to `connection.send_message`, until the queue is empty; returns the messages
in the order they are handed to the connection. -/
def flushLoop : List Message → List Message
  | [] => []
  | m :: rest => m :: flushLoop rest

/-- Flushing the outbound queue (lines 135–140): every queued message is
handed to the connection in `flushLoop` order and the queue empties. -/
def flushState (s : ClientState) : ClientState :=
  { s with
    message_write_queue := []
    transmitted := s.transmitted ++ flushLoop s.message_write_queue }

/-- One iteration of the reactor loop (lines 122–140): one `do_processing`
call, then — per the `select` results `readable`/`writable` — at most one
received message appended to the inbound queue, and a flush when writable. -/
def runIteration (fresh_path : String) (readable writable : Bool)
    (received : Option Message) (s : ClientState) : Option ClientState :=
  match do_processing fresh_path s with
  | none => none
  | some s1 =>
    let s2 := if readable then
        match received with
        | some m => { s1 with message_read_queue := s1.message_read_queue ++ [m] }
        | none => s1
      else s1
    some (if writable then flushState s2 else s2)

/-- Model of `message_write_queue.append(m)` (the enqueue operation of the outbound
queue, as performed at lines 58, 65, 68, 108). -/
def sendEnqueue (m : Message) (s : ClientState) : ClientState :=
  { s with message_write_queue := s.message_write_queue ++ [m] }

/-- Delivery of one inbound message followed by its processing: the message
is appended to the inbound queue (as `run` line 133 does on receipt) and one
`do_processing` step runs. -/
def deliverAndProcess (fresh_path : String) (m : Message) (s : ClientState) :
    Option ClientState :=
  do_processing fresh_path { s with message_read_queue := s.message_read_queue ++ [m] }

/-- Delivery and processing of a list of inbound messages, in order. -/
def deliverAll (fresh_path : String) : List Message → ClientState → Option ClientState
  | [], s => some s
  | m :: ms, s => (deliverAndProcess fresh_path m s).bind (deliverAll fresh_path ms)

/-! ## Task execution bridge -/

/-- A hook invocation from the running task: the beat hook or the die hook. -/
inductive HookCall where
  | beat
  | die
deriving DecidableEq

/-- Modelled from the spec: the `PMRProcessing` task runner (Mapper/Reducer,
not under `src/`) invokes the registered beat hook periodically during
`task.run()` and the registered die hook exactly once, when the computation
finishes. -/
def taskHookCalls (numBeats : Nat) : List HookCall :=
  List.replicate numBeats .beat ++ [.die]

/-- The task-side counters read by the beat hook: `task.progress` and
`task.start_time` (the task's own execution start). Reals of the Python
runtime are modelled as exact rationals. -/
structure TaskState where
  progress : ℚ
  start_time : ℚ
deriving DecidableEq

/-- The progress/rate pair carried by a JOB_HEARTBEAT. -/
structure HeartbeatFields where
  progress : ℚ
  rate : ℚ
deriving DecidableEq

/-- The beat hook registered via `task.SetBeatMethod` (lines 97–103): builds
`JobHeartbeatMessage(str(task.progress),
str(task.progress/(time.time() - task.start_time)))`; `now` models
`time.time()`. -/
def beatHeartbeat (task : TaskState) (now : ℚ) : HeartbeatFields :=
  { progress := task.progress
    rate := task.progress / (now - task.start_time) }

end PMR

open PMR

/-- C1: the claim is that `decode(encode(m)) == m` for every opcode and for
empty, ASCII and multi-byte UTF-8 bodies. The code violates it: the header's
length field is the codepoint count and `struct.pack('Ns', ...)` truncates the
UTF-8 bytes to that count, so a multi-byte body (here `"é"`, one codepoint,
two UTF-8 bytes) is truncated to an undecodable byte sequence. Round-trip does
hold for an absent body, an empty body, and an ASCII body. -/
theorem C1_roundtrip_fails_on_multibyte :
    ((encodeWire ⟨.JOB_DONE, none⟩).bind decodeWire) =
      some (.JOB_DONE, bodyCodepoints ⟨.JOB_DONE, none⟩) ∧
    ((encodeWire ⟨.JOB_HEARTBEAT, some ""⟩).bind decodeWire) =
      some (.JOB_HEARTBEAT, bodyCodepoints ⟨.JOB_HEARTBEAT, some ""⟩) ∧
    ((encodeWire ⟨.JOB_DONE, some "hi"⟩).bind decodeWire) =
      some (.JOB_DONE, bodyCodepoints ⟨.JOB_DONE, some "hi"⟩) ∧
    ((encodeWire ⟨.JOB_DONE, some "é"⟩).bind decodeWire) = none := by
  refine ⟨by decide, by decide, by decide, by decide⟩

/-- C2: the claim is that the header's `body_length` field equals the body's
UTF-8 byte length. The code writes `len(self._body)`, the codepoint count:
for body `"é"` the header field is `1` while the UTF-8 byte length is `2`. -/
theorem C2_header_len_is_codepoint_count :
    get_header_for_send ⟨.JOB_DONE, some "é"⟩ = some [13, 0, 0, 0, 1] ∧
    (utf8Encode "é").length = 2 := by
  refine ⟨by decide, by decide⟩

/-- C3: the claim is that a JOB_START with `instructions_kind` other than
Mapper/Reducer raises `ProtocolError(UnsupportedInstructionKind)` surfaced as
a CLIENT_ERROR. The code instead leaves `out_path` unbound and crashes with
`UnboundLocalError` at `fs.open(out_path, 'w')` — embedded as `none`, with no
CLIENT_ERROR ever enqueued: here kind `"Foo"` makes output-path resolution
fail and the whole processing step abort. -/
theorem C3_unsupported_kind_crashes :
    resolveOutPath "fresh" "Foo" (some 0) = none ∧
    do_processing "fresh" { initialClientState with
      message_read_queue := [⟨.JOB_START, none⟩]
      has_job := true
      instructions_file := some "pkg"
      instructions_type := some "Foo"
      data_path := some "/tmp/in"
      num_workers := some 2
      partition_num := some 0 } = none := by
  refine ⟨by decide, by decide⟩

/-- C4: a four-field `';;'`-separated JOB_INSTRUCTIONS_FILE body parses into
reference, kind, worker count and partition number (`"pkg.mod;;Mapper;;4;;0"`
gives exactly the claimed values); a body with fewer than four fields fails
(`IndexError` in the code, the spec's `MalformedInstructions`), and so does a
body whose numeric fields do not parse as integers (`ValueError`). -/
theorem C4_instructions_parsing :
    parseJobInstructions "pkg.mod;;Mapper;;4;;0" = some ("pkg.mod", "Mapper", 4, 0) ∧
    (∀ body : String, (pySplitSS body).length < 4 → parseJobInstructions body = none) ∧
    (∀ (body p t f2 f3 : String) (rest : List String),
      pySplitSS body = p :: t :: f2 :: f3 :: rest →
      (pyInt f2 = none ∨ pyInt f3 = none) →
      parseJobInstructions body = none) := by
  refine ⟨by decide, ?_, ?_⟩
  · intro body h
    have h3 : (pySplitSS body)[3]? = none := List.getElem?_eq_none (by omega)
    cases h0 : (pySplitSS body)[0]? with
    | none => simp [parseJobInstructions, h0]
    | some p =>
      cases h1 : (pySplitSS body)[1]? with
      | none => simp [parseJobInstructions, h0, h1]
      | some t =>
        cases h2 : (pySplitSS body)[2]? with
        | none => simp [parseJobInstructions, h0, h1, h2]
        | some f2 =>
          cases hp : pyInt f2 with
          | none => simp [parseJobInstructions, h0, h1, h2, hp]
          | some n => simp [parseJobInstructions, h0, h1, h2, hp, h3]
  · intro body p t f2 f3 rest hsplit hnone
    rcases hnone with h | h
    · simp [parseJobInstructions, hsplit, h]
    · cases hp : pyInt f2 <;> simp [parseJobInstructions, hsplit, h, hp]

/-- Witness for C4 at concrete inputs: a three-field body fails, and a
four-field body with a non-numeric worker-count field fails. -/
theorem C4_instructions_parsing_witness :
    ((pySplitSS "a;;b;;c").length < 4 ∧ parseJobInstructions "a;;b;;c" = none) ∧
    (pySplitSS "a;;b;;x;;0" = ["a", "b", "x", "0"] ∧ pyInt "x" = none ∧
      parseJobInstructions "a;;b;;x;;0" = none) :=
  ⟨⟨by decide, C4_instructions_parsing.2.1 "a;;b;;c" (by decide)⟩,
   ⟨by decide, by decide,
    C4_instructions_parsing.2.2 "a;;b;;x;;0" "a" "b" "x" "0" [] (by decide)
      (Or.inl (by decide))⟩⟩

/-- C5: while `has_job` is true, processing an inbound JOB_READY pops it from
the inbound queue and does nothing else: no new outbound message, every Job
Context field unchanged. -/
theorem C5_duplicate_job_ready_noop :
    ∀ (fresh_path : String) (s : ClientState) (m : Message) (rest : List Message),
      s.has_job = true →
      s.message_read_queue = m :: rest →
      m.m_type = .JOB_READY →
      do_processing fresh_path s = some { s with message_read_queue := rest } := by
  intro fp s m rest hjob hq hm
  unfold do_processing
  rw [hq]
  simp [hm, hjob]

/-- Witness for C5: a concrete state with a job in flight and a duplicate
JOB_READY at the head of the inbound queue. -/
theorem C5_duplicate_job_ready_noop_witness :
    do_processing "f"
        { initialClientState with
          has_job := true
          message_read_queue := [jobReadyMessage "42"] } =
      some { { initialClientState with
          has_job := true
          message_read_queue := [jobReadyMessage "42"] } with
        message_read_queue := [] } :=
  C5_duplicate_job_ready_noop "f" _ (jobReadyMessage "42") [] rfl rfl rfl

/-- Helper: the modelled task run calls the die hook exactly once. -/
theorem taskHookCalls_count_die (n : Nat) : (taskHookCalls n).count HookCall.die = 1 := by
  induction n with
  | zero => rfl
  | succ k ih =>
    simpa [taskHookCalls, List.replicate_succ, List.count_cons] using ih

/-- Helper: the write-flush loop hands over exactly the queued messages, in
queue order. -/
theorem flushLoop_eq (l : List Message) : flushLoop l = l := by
  induction l with
  | nil => rfl
  | cons m rest ih => simp [flushLoop, ih]

/-- Helper: one `do_processing` step pops at most the head of the inbound
queue and touches nothing else in it. -/
theorem do_processing_read_queue (fp : String) (s s' : ClientState)
    (h : do_processing fp s = some s') :
    s'.message_read_queue = s.message_read_queue.drop 1 := by
  unfold do_processing jobStartBranch at h
  rcases hq : s.message_read_queue with _ | ⟨m, rest⟩ <;> rw [hq] at h <;>
    dsimp only at h
  · cases h
    simp [hq]
  · repeat' split at h
    all_goals (try cases h)
    all_goals simp [dieMethod, prep_for_new_job]

/-- Helper: one `do_processing` step only appends to the outbound queue. -/
theorem do_processing_write_extends (fp : String) (s s' : ClientState)
    (h : do_processing fp s = some s') :
    ∃ t, s'.message_write_queue = s.message_write_queue ++ t := by
  unfold do_processing jobStartBranch at h
  rcases hq : s.message_read_queue with _ | ⟨m, rest⟩ <;> rw [hq] at h <;>
    dsimp only at h
  · cases h
    exact ⟨[], by simp⟩
  · repeat' split at h
    all_goals (try cases h)
    all_goals first
      | exact ⟨[], (List.append_nil _).symm⟩
      | exact ⟨[jobReadyToReceiveMessage], rfl⟩
      | exact ⟨[jobInstructionsFileAckMessage], rfl⟩
      | exact ⟨[dataFileAckMessage], rfl⟩
      | (rename_i out_path heq2
         exact ⟨[jobDoneMessage out_path], by simp [dieMethod, prep_for_new_job]⟩)

/-- Helper: delivering and processing any list of inbound messages only
appends to the outbound queue. -/
theorem deliverAll_write_extends (fp : String) (ms : List Message) :
    ∀ (s s' : ClientState), deliverAll fp ms s = some s' →
      ∃ t, s'.message_write_queue = s.message_write_queue ++ t := by
  induction ms with
  | nil =>
    intro s s' h
    cases h
    exact ⟨[], by simp⟩
  | cons m ms ih =>
    intro s s' h
    unfold deliverAll at h
    cases h1 : deliverAndProcess fp m s with
    | none => rw [h1] at h; cases h
    | some s1 =>
      rw [h1] at h
      obtain ⟨t1, ht1⟩ := do_processing_write_extends fp _ s1 h1
      obtain ⟨t2, ht2⟩ := ih s1 s' h
      exact ⟨t1 ++ t2, by simp [ht2, ht1, List.append_assoc]⟩

/-- C6: the completion hook closes the output stream, enqueues JOB_DONE with
the output path, resets every Job Context field to empty, is invoked exactly
once by the (spec-modelled) task run, and the reset state accepts the next
JOB_READY again (sets `has_job`, emits JOB_READY_TO_RECEIVE). -/
theorem C6_completion_hook :
    ∀ (s : ClientState) (p : String) (n : Nat) (fp job_id : String) (r : List Message),
      (dieMethod p s).stream_closed = true ∧
      (dieMethod p s).state.message_write_queue =
        s.message_write_queue ++ [jobDoneMessage p] ∧
      (dieMethod p s).state.has_job = false ∧
      (dieMethod p s).state.instructions_file = none ∧
      (dieMethod p s).state.instructions_type = none ∧
      (dieMethod p s).state.data_path = none ∧
      (dieMethod p s).state.num_workers = none ∧
      (dieMethod p s).state.partition_num = none ∧
      (taskHookCalls n).count HookCall.die = 1 ∧
      do_processing fp
          { (dieMethod p s).state with
            message_read_queue := jobReadyMessage job_id :: r } =
        some { (dieMethod p s).state with
          message_read_queue := r
          has_job := true
          message_write_queue :=
            (dieMethod p s).state.message_write_queue ++ [jobReadyToReceiveMessage] } := by
  intro s p n fp job_id r
  refine ⟨rfl, rfl, rfl, rfl, rfl, rfl, rfl, rfl, taskHookCalls_count_die n, ?_⟩
  rfl

/-- C7: outbound enqueue order is transmission order. Enqueue A, then any
inbound traffic, then B, more traffic, then C, more traffic: the outbound
queue holds A, B, C in that relative order, and a flush hands the whole queue
to the connection in exactly queue order. -/
theorem C7_fifo_order :
    ∀ (fp : String) (s : ClientState) (A B C : Message)
      (xs ys zs : List Message) (s3 : ClientState),
      ((deliverAll fp xs (sendEnqueue A s)).bind fun s1 =>
        (deliverAll fp ys (sendEnqueue B s1)).bind fun s2 =>
          deliverAll fp zs (sendEnqueue C s2)) = some s3 →
      ∃ u v w : List Message,
        s3.message_write_queue =
          s.message_write_queue ++ [A] ++ u ++ [B] ++ v ++ [C] ++ w ∧
        (flushState s3).transmitted =
          s3.transmitted ++ (s.message_write_queue ++ [A] ++ u ++ [B] ++ v ++ [C] ++ w) := by
  intro fp s A B C xs ys zs s3 h
  cases h1 : deliverAll fp xs (sendEnqueue A s) with
  | none => rw [h1] at h; cases h
  | some s1 =>
    rw [h1] at h
    simp only [Option.some_bind] at h
    cases h2 : deliverAll fp ys (sendEnqueue B s1) with
    | none => rw [h2] at h; cases h
    | some s2 =>
      rw [h2] at h
      simp only [Option.some_bind] at h
      obtain ⟨u, hu⟩ := deliverAll_write_extends fp xs _ s1 h1
      obtain ⟨v, hv⟩ := deliverAll_write_extends fp ys _ s2 h2
      obtain ⟨w, hw⟩ := deliverAll_write_extends fp zs _ s3 h
      refine ⟨u, v, w, ?_, ?_⟩
      · simp [hw, hv, hu, sendEnqueue, List.append_assoc]
      · simp [flushState, flushLoop_eq, hw, hv, hu, sendEnqueue, List.append_assoc]

/-- Witness for C7: concrete run — enqueue three acks with a SUBSCRIBE_ACK
and a fresh JOB_READY delivered in between; the flush transmits the
pre-queued SUBSCRIBE, the three enqueued messages and the interleaved
JOB_READY_TO_RECEIVE in enqueue order. -/
theorem C7_fifo_order_witness :
    ∃ u v w : List Message,
      ({ initialClientState with
          has_job := true
          message_write_queue :=
            [subscribeMessage, Message.mk .JOB_START_ACK none,
              Message.mk .DATAFILE_ACK none, jobReadyToReceiveMessage,
              Message.mk .JOB_DONE_ACK none] } : ClientState).message_write_queue =
        initialClientState.message_write_queue ++ [Message.mk .JOB_START_ACK none] ++ u ++
          [Message.mk .DATAFILE_ACK none] ++ v ++ [Message.mk .JOB_DONE_ACK none] ++ w ∧
      (flushState { initialClientState with
          has_job := true
          message_write_queue :=
            [subscribeMessage, Message.mk .JOB_START_ACK none,
              Message.mk .DATAFILE_ACK none, jobReadyToReceiveMessage,
              Message.mk .JOB_DONE_ACK none] }).transmitted =
        ({ initialClientState with
          has_job := true
          message_write_queue :=
            [subscribeMessage, Message.mk .JOB_START_ACK none,
              Message.mk .DATAFILE_ACK none, jobReadyToReceiveMessage,
              Message.mk .JOB_DONE_ACK none] } : ClientState).transmitted ++
          (initialClientState.message_write_queue ++ [Message.mk .JOB_START_ACK none] ++ u ++
            [Message.mk .DATAFILE_ACK none] ++ v ++ [Message.mk .JOB_DONE_ACK none] ++ w) :=
  C7_fifo_order "f" initialClientState (Message.mk .JOB_START_ACK none)
    (Message.mk .DATAFILE_ACK none) (Message.mk .JOB_DONE_ACK none)
    [Message.mk .SUBSCRIBE_ACK_MESSAGE (some "1")] [jobReadyMessage "9"] []
    _ (by decide)

/-- C9: each `do_processing` call dequeues at most the head of the inbound
queue (exactly one when messages are buffered, none when empty), and one full
reactor iteration changes the inbound queue only by that single dequeue plus
at most one newly received message. -/
theorem C9_one_message_per_iteration :
    (∀ (fp : String) (s s' : ClientState), do_processing fp s = some s' →
      s'.message_read_queue = s.message_read_queue.drop 1) ∧
    (∀ (fp : String) (rd wr : Bool) (rcv : Option Message) (s s' : ClientState),
      runIteration fp rd wr rcv s = some s' →
      ∃ appended : List Message,
        appended.length ≤ 1 ∧
        s'.message_read_queue = s.message_read_queue.drop 1 ++ appended) := by
  refine ⟨do_processing_read_queue, ?_⟩
  intro fp rd wr rcv s s' h
  unfold runIteration at h
  cases h1 : do_processing fp s with
  | none => rw [h1] at h; cases h
  | some s1 =>
    rw [h1] at h
    have hr := do_processing_read_queue fp s s1 h1
    cases h
    cases rd with
    | false =>
      cases wr <;> exact ⟨[], by simp [flushState, hr]⟩
    | true =>
      cases rcv with
      | none => cases wr <;> exact ⟨[], by simp [flushState, hr]⟩
      | some m => cases wr <;> exact ⟨[m], by simp [flushState, hr]⟩

/-- Witness for C9: with two messages buffered, one step dequeues exactly the
first; a full iteration with a received message dequeues one and appends the
received one. -/
theorem C9_one_message_per_iteration_witness :
    ({ initialClientState with
        has_job := true
        message_read_queue := [jobReadyMessage "2"] } : ClientState).message_read_queue =
      ({ initialClientState with
        has_job := true
        message_read_queue :=
          [jobReadyMessage "1", jobReadyMessage "2"] } : ClientState).message_read_queue.drop 1 ∧
    ∃ appended : List Message,
      appended.length ≤ 1 ∧
      ({ initialClientState with
          has_job := true
          message_read_queue := [jobReadyMessage "2", jobReadyMessage "3"] } :
          ClientState).message_read_queue =
        ({ initialClientState with
          has_job := true
          message_read_queue :=
            [jobReadyMessage "1", jobReadyMessage "2"] } : ClientState).message_read_queue.drop 1
          ++ appended := by
  refine ⟨?_, ?_⟩
  · exact C9_one_message_per_iteration.1 "f"
      { initialClientState with
        has_job := true
        message_read_queue := [jobReadyMessage "1", jobReadyMessage "2"] }
      { initialClientState with
        has_job := true
        message_read_queue := [jobReadyMessage "2"] } (by decide)
  · exact C9_one_message_per_iteration.2 "f" true false (some (jobReadyMessage "3"))
      { initialClientState with
        has_job := true
        message_read_queue := [jobReadyMessage "1", jobReadyMessage "2"] }
      { initialClientState with
        has_job := true
        message_read_queue := [jobReadyMessage "2", jobReadyMessage "3"] } (by decide)

/-- C10: an inbound message of any opcode outside
{JOB_READY, JOB_INSTRUCTIONS_FILE, DATAFILE, JOB_START} is popped from the
inbound queue and nothing else happens: no Job Context change, nothing
appended to the outbound queue. -/
theorem C10_other_opcodes_noop :
    ∀ (fp : String) (s : ClientState) (m : Message) (rest : List Message),
      s.message_read_queue = m :: rest →
      m.m_type ≠ .JOB_READY →
      m.m_type ≠ .JOB_INSTRUCTIONS_FILE →
      m.m_type ≠ .DATAFILE →
      m.m_type ≠ .JOB_START →
      do_processing fp s = some { s with message_read_queue := rest } := by
  intro fp s m rest hq h1 h2 h3 h4
  unfold do_processing
  rw [hq]
  simp [h1, h2, h3, h4]

/-- Witness for C10: a SUBSCRIBE_ACK is dequeued with no other effect. -/
theorem C10_other_opcodes_noop_witness :
    do_processing "f"
        { initialClientState with
          message_read_queue := [Message.mk .SUBSCRIBE_ACK_MESSAGE (some "7")] } =
      some { { initialClientState with
          message_read_queue := [Message.mk .SUBSCRIBE_ACK_MESSAGE (some "7")] } with
        message_read_queue := [] } :=
  C10_other_opcodes_noop "f" _ (Message.mk .SUBSCRIBE_ACK_MESSAGE (some "7")) [] rfl
    (by decide) (by decide) (by decide) (by decide)

/-- C8: the heartbeat built by the beat hook carries rate =
progress / (now − task.start_time), elapsed time measured from the task's own
execution start; at progress 50 and a start 10 seconds before now the rate is
exactly 5. -/
theorem C8_heartbeat_rate :
    ∀ (task : TaskState) (now : ℚ),
      (beatHeartbeat task now).rate = task.progress / (now - task.start_time) ∧
      ∀ t0 : ℚ, (beatHeartbeat ⟨50, t0⟩ (t0 + 10)).rate = 5 := by
  intro task now
  refine ⟨rfl, ?_⟩
  intro t0
  show (50 : ℚ) / ((t0 + 10) - t0) = 5
  have h : (t0 + 10) - t0 = (10 : ℚ) := by ring
  rw [h]
  norm_num

